import Mathlib

/-!
Verification development for the `read-solar-inverter` collector scripts.

The Python sources (`collect_solar_data.py`, `collect_p1_data.py`) are shallowly
embedded below.  Numeric values carried by Python floats are modelled by
`PyFloat`: an exact rational for finite values plus the three non-finite values
that Python's `float(str)` can produce (`inf`, `-inf`, `nan`).  A finite value
is the exact rational value of an IEEE-754 binary64 double: `roundF64`
reproduces CPython's conversion of the parsed literal to the nearest double
(round to nearest, ties to even, with subnormals, underflow to zero and
overflow to infinity), so e.g. `float("2.9999999999999999")` is `3.0` in the
model just as in CPython.  The character
classes used for whitespace stripping are the ASCII ones recognised by
`Char.isWhitespace`; Python strips a slightly larger set, but every string made
of the extra characters is malformed as a float literal anyway, so the
observable result of `parse_xml_value` agrees.  Fallible Python code
(exceptions caught by the scripts' `except` blocks) is modelled with `Option`.
-/

/-- Model of a Python float value: an exact rational, or one of the
non-finite values `float("inf")`, `float("-inf")`, `float("nan")`. -/
inductive PyFloat where
  | fin (q : ℚ)
  | inf
  | negInf
  | nan
deriving DecidableEq

/-- True exactly on finite Python floats. -/
def PyFloat.isFinite : PyFloat → Bool
  | .fin _ => true
  | _ => false

/-- Strip leading and trailing whitespace from a character list (model of
Python `str.strip()` restricted to the ASCII whitespace characters). -/
def stripChars (cs : List Char) : List Char :=
  ((cs.dropWhile Char.isWhitespace).reverse.dropWhile Char.isWhitespace).reverse

/-- Strip leading and trailing whitespace from a string. -/
def pyStrip (s : String) : String := (stripChars s.toList).asString

/-- Numeric value of an ASCII digit character. -/
def digitVal (c : Char) : ℕ := c.toNat - 48

/-- Consume further digits of a digit group, allowing a single underscore
between two digits (Python numeric-literal underscore rule).  Returns the
accumulated value, the number of digits read, and the unconsumed rest. -/
def parseDigitsGo (acc nd : ℕ) : List Char → ℕ × ℕ × List Char
  | [] => (acc, nd, [])
  | [c] =>
    if c.isDigit then (10 * acc + digitVal c, nd + 1, ([] : List Char))
    else (acc, nd, [c])
  | c :: d :: cs =>
    if c.isDigit then parseDigitsGo (10 * acc + digitVal c) (nd + 1) (d :: cs)
    else if c = '_' ∧ d.isDigit then parseDigitsGo (10 * acc + digitVal d) (nd + 1) cs
    else (acc, nd, c :: d :: cs)

/-- Parse a non-empty digit group (with underscores between digits); `none`
when the input does not start with a digit. -/
def parseDigits : List Char → Option (ℕ × ℕ × List Char)
  | [] => none
  | c :: cs => if c.isDigit then some (parseDigitsGo (digitVal c) 1 cs) else none

/-- Exact rational value of a decimal literal from its pieces: integer part,
fractional digits (value and length) and decimal exponent. -/
def decValue (ipVal fracVal fracLen : ℕ) (ex : ℤ) : ℚ :=
  let m : ℤ := ((ipVal * 10 ^ fracLen + fracVal : ℕ) : ℤ)
  let e : ℤ := ex - (fracLen : ℤ)
  if 0 ≤ e then mkRat (m * (10 : ℤ) ^ e.toNat) 1 else mkRat m ((10 : ℕ) ^ (-e).toNat)

/-- Parse an unsigned decimal float literal (integer part, optional fraction,
optional exponent), the grammar accepted by Python's `float` after sign and
whitespace handling.  Returns the exact rational value. -/
def parseDecimal (cs : List Char) : Option ℚ :=
  let (ipVal, hasInt, rest1) :=
    match parseDigits cs with
    | some (v, _, r) => (v, true, r)
    | none => (0, false, cs)
  let (fracVal, fracLen, hasFrac, rest2) :=
    match rest1 with
    | '.' :: r =>
      match parseDigits r with
      | some (v, nd, r2) => (v, nd, true, r2)
      | none => (0, 0, false, r)
    | r => (0, 0, false, r)
  if hasInt || hasFrac then
    match rest2 with
    | [] => some (decValue ipVal fracVal fracLen 0)
    | c :: r =>
      if c = 'e' ∨ c = 'E' then
        let (esign, r2) : ℤ × List Char :=
          match r with
          | '+' :: t => ((1 : ℤ), t)
          | '-' :: t => ((-1 : ℤ), t)
          | t => ((1 : ℤ), t)
        match parseDigits r2 with
        | some (v, _, r3) =>
          if r3 = [] then some (decValue ipVal fracVal fracLen (esign * (v : ℤ))) else none
        | none => none
      else none
  else none

/-- Number of binary digits of a natural number (`0` for `0`), computed with
explicit fuel (consuming up to 256 bits per step) so that it reduces in the
kernel. -/
def natBitsAux : ℕ → ℕ → ℕ
  | 0, _ => 0
  | fuel + 1, n =>
    if n = 0 then 0
    else if 2 ^ 256 ≤ n then natBitsAux fuel (n / 2 ^ 256) + 256
    else if 2 ^ 16 ≤ n then natBitsAux fuel (n / 2 ^ 16) + 16
    else natBitsAux fuel (n / 2) + 1

/-- Number of binary digits of a natural number (`0` for `0`). -/
def natBits (n : ℕ) : ℕ := natBitsAux n n

/-- Does `n / d ≥ 2 ^ k` hold, for positive `n`, `d` and an integer `k`? -/
def qGePow2 (n d : ℕ) (k : ℤ) : Bool :=
  if 0 ≤ k then d * 2 ^ k.toNat ≤ n else d ≤ n * 2 ^ (-k).toNat

/-- Floor of the base-2 logarithm of the positive rational `n / d`. -/
def qFloorLog2 (n d : ℕ) : ℤ :=
  let b : ℤ := (natBits n : ℤ) - (natBits d : ℤ)
  if qGePow2 n d b then b else b - 1

/-- Round the positive rational `n / d` to the nearest IEEE-754 binary64
value (round to nearest, ties to even), returning its exact rational value —
what CPython does with the exact value of a parsed decimal literal.  `e` is
the floor base-2 logarithm; a normal value is scaled to a 53-bit significand
(`s = 52 - e`), a subnormal one to the fixed quantum `2 ^ (-1074)`
(underflowing to zero when the rounded significand is zero); a value at or
beyond `2 ^ 1024` after rounding overflows to infinity. -/
def roundF64Pos (n d : ℕ) : PyFloat :=
  let e : ℤ := qFloorLog2 n d
  if 1024 ≤ e then PyFloat.inf
  else
    let s : ℤ := if e < -1022 then 1074 else 52 - e
    let nd : ℕ × ℕ := if 0 ≤ s then (n * 2 ^ s.toNat, d) else (n, d * 2 ^ (-s).toNat)
    let m0 := nd.1 / nd.2
    let r := nd.1 % nd.2
    let m := if nd.2 < 2 * r then m0 + 1
             else if 2 * r < nd.2 then m0
             else if m0 % 2 = 0 then m0 else m0 + 1
    if m = 2 ^ 53 ∧ e = 1023 then PyFloat.inf
    else if 0 ≤ s then PyFloat.fin (mkRat (m : ℤ) (2 ^ s.toNat))
    else PyFloat.fin (mkRat ((m : ℤ) * ((2 ^ (-s).toNat : ℕ) : ℤ)) 1)

/-- Round a rational to the nearest binary64 value (the rounding is
symmetric in the sign). -/
def roundF64 (q : ℚ) : PyFloat :=
  if q = 0 then PyFloat.fin 0
  else if 0 < q then roundF64Pos q.num.natAbs q.den
  else
    match roundF64Pos q.num.natAbs q.den with
    | PyFloat.fin v => PyFloat.fin (-v)
    | _ => PyFloat.negInf

/-- Model of Python `float(s)` on a stripped character list: optional sign,
then case-insensitive `inf`/`infinity`/`nan` or a decimal literal, whose
exact value is rounded to the nearest binary64 double as CPython does.
`none` models the `ValueError` raised on malformed input. -/
def pyFloatOfChars (cs : List Char) : Option PyFloat :=
  let sb : Bool × List Char :=
    match cs with
    | '+' :: t => (false, t)
    | '-' :: t => (true, t)
    | t => (false, t)
  let l := sb.2.map Char.toLower
  if l = "inf".toList ∨ l = "infinity".toList then
    some (if sb.1 then PyFloat.negInf else PyFloat.inf)
  else if l = "nan".toList then some PyFloat.nan
  else
    match parseDecimal sb.2 with
    | some q => some (roundF64 (if sb.1 then -q else q))
    | none => none

/-- Model of Python `float(s)` on a string (leading/trailing whitespace is
stripped first, as `float` does). -/
def pyFloat (s : String) : Option PyFloat := pyFloatOfChars (pyStrip s).toList

/-- Embedding of `parse_xml_value` (collect_solar_data.py, lines 54-61):
`None`, the `-` sentinel and blank strings give `None`; otherwise the value is
run through `float`, with `ValueError`/`TypeError` caught and turned into
`None`.  Totality of this definition is the "never raises" guarantee. -/
def parse_xml_value (value : Option String) : Option PyFloat :=
  match value with
  | none => none
  | some s => if pyStrip s = "-" ∨ pyStrip s = "" then none else pyFloat s

/-- Truncation toward zero of a rational, the behaviour of Python `int(x)`
on a finite float. -/
def truncQ (q : ℚ) : ℤ := q.num.tdiv (q.den : ℤ)

/-- Python truthiness of a float: only (negative) zero is falsy. -/
def pyTruthy : PyFloat → Bool
  | .fin q => if q = 0 then false else true
  | _ => true

/-- Python `int(x)` on a float: truncation toward zero on finite values;
`none` models the `OverflowError`/`ValueError` raised on `inf`/`nan`. -/
def pyInt : PyFloat → Option ℤ
  | .fin q => some (truncQ q)
  | _ => none

/-- Embedding of the expression `int(parse_xml_value(...) or 0)` used for the
required integer fields `pac1`, `p_ac` and `max_power`
(collect_solar_data.py, lines 86, 89, 100): an absent or falsy (zero) value
becomes `0`; a non-finite value raises (modelled by `none`). -/
def requiredInt (v : Option PyFloat) : Option ℤ :=
  match v with
  | none => some 0
  | some f => if pyTruthy f then pyInt f else some 0

/-- Embedding of the expression
`int(parse_xml_value(...) or 0) if parse_xml_value(...) is not None else None`
used for the optional integer fields `pac2` and `pac3`
(collect_solar_data.py, lines 87-88): an absent value stays `None` (inner
`none`); a present value is narrowed like a required one.  The outer `Option`
models the exception raised by `int` on a non-finite value. -/
def optionalInt (v : Option PyFloat) : Option (Option ℤ) :=
  match v with
  | none => some none
  | some f => (if pyTruthy f then pyInt f else some 0).map some

/-- Model of a parsed XML document as seen through
`root.find(name).text if root.find(name) is not None else None`: a lookup from
element name to optional text.  A missing element and a present element with
empty text both yield `none`, exactly as the two Python `None`s collapse
before reaching `parse_xml_value`. -/
def XmlDoc : Type := String → Option String

/-- Record built by `fetch_inverter_data` (collect_solar_data.py, lines
74-113), one field per key of the Python `data` dict, with the value type the
Python code guarantees: `Option PyFloat` for coerced scalar fields, `Option ℤ`
for the integer-narrowed fields (mirroring the nullable SQL columns: the three
required ones are always `some`). -/
structure InverterData where
  timestamp : ℕ
  state : Option String
  vac_l1 : Option PyFloat
  vac_l2 : Option PyFloat
  vac_l3 : Option PyFloat
  iac_l1 : Option PyFloat
  iac_l2 : Option PyFloat
  iac_l3 : Option PyFloat
  freq1 : Option PyFloat
  freq2 : Option PyFloat
  freq3 : Option PyFloat
  pac1 : Option ℤ
  pac2 : Option ℤ
  pac3 : Option ℤ
  p_ac : Option ℤ
  temp : Option PyFloat
  e_today : Option PyFloat
  t_today : Option PyFloat
  e_total : Option PyFloat
  co2 : Option PyFloat
  t_total : Option PyFloat
  v_pv1 : Option PyFloat
  v_pv2 : Option PyFloat
  v_pv3 : Option PyFloat
  v_bus : Option PyFloat
  max_power : Option ℤ
  i_pv11 : Option PyFloat
  i_pv12 : Option PyFloat
  i_pv13 : Option PyFloat
  i_pv14 : Option PyFloat
  i_pv21 : Option PyFloat
  i_pv22 : Option PyFloat
  i_pv23 : Option PyFloat
  i_pv24 : Option PyFloat
  i_pv31 : Option PyFloat
  i_pv32 : Option PyFloat
  i_pv33 : Option PyFloat
  i_pv34 : Option PyFloat
deriving DecidableEq

/-- Embedding of the parsing part of `fetch_inverter_data`
(collect_solar_data.py, lines 64-126).  The `payload` argument is the outcome
of the HTTP fetch and `ET.fromstring`: `none` models a transport error or
malformed XML (both caught and turned into `None` by the source).  The
capture timestamp `ts` models `datetime.now()`, stamped at parse time.  An
exception raised by one of the five `int(...)` narrowings (on a non-finite
float) is caught by the source's catch-all handler, which also returns
`None`; the `Option.bind` chain models exactly that. -/
def fetch_inverter_data (ts : ℕ) (payload : Option XmlDoc) : Option InverterData :=
  match payload with
  | none => none
  | some doc =>
    (requiredInt (parse_xml_value (doc "pac1"))).bind fun vpac1 =>
    (optionalInt (parse_xml_value (doc "pac2"))).bind fun vpac2 =>
    (optionalInt (parse_xml_value (doc "pac3"))).bind fun vpac3 =>
    (requiredInt (parse_xml_value (doc "p-ac"))).bind fun vp_ac =>
    (requiredInt (parse_xml_value (doc "maxPower"))).bind fun vmax =>
    some
      { timestamp := ts
        state := doc "state"
        vac_l1 := parse_xml_value (doc "Vac_l1")
        vac_l2 := parse_xml_value (doc "Vac_l2")
        vac_l3 := parse_xml_value (doc "Vac_l3")
        iac_l1 := parse_xml_value (doc "Iac_l1")
        iac_l2 := parse_xml_value (doc "Iac_l2")
        iac_l3 := parse_xml_value (doc "Iac_l3")
        freq1 := parse_xml_value (doc "Freq1")
        freq2 := parse_xml_value (doc "Freq2")
        freq3 := parse_xml_value (doc "Freq3")
        pac1 := some vpac1
        pac2 := vpac2
        pac3 := vpac3
        p_ac := some vp_ac
        temp := parse_xml_value (doc "temp")
        e_today := parse_xml_value (doc "e-today")
        t_today := parse_xml_value (doc "t-today")
        e_total := parse_xml_value (doc "e-total")
        co2 := parse_xml_value (doc "CO2")
        t_total := parse_xml_value (doc "t-total")
        v_pv1 := parse_xml_value (doc "v-pv1")
        v_pv2 := parse_xml_value (doc "v-pv2")
        v_pv3 := parse_xml_value (doc "v-pv3")
        v_bus := parse_xml_value (doc "v-bus")
        max_power := some vmax
        i_pv11 := parse_xml_value (doc "i-pv11")
        i_pv12 := parse_xml_value (doc "i-pv12")
        i_pv13 := parse_xml_value (doc "i-pv13")
        i_pv14 := parse_xml_value (doc "i-pv14")
        i_pv21 := parse_xml_value (doc "i-pv21")
        i_pv22 := parse_xml_value (doc "i-pv22")
        i_pv23 := parse_xml_value (doc "i-pv23")
        i_pv24 := parse_xml_value (doc "i-pv24")
        i_pv31 := parse_xml_value (doc "i-pv31")
        i_pv32 := parse_xml_value (doc "i-pv32")
        i_pv33 := parse_xml_value (doc "i-pv33")
        i_pv34 := parse_xml_value (doc "i-pv34") }

/-- Result of parsing a document in which every looked-up field is absent or
a sentinel: the three required integer fields default to `0`, everything else
is absent. -/
def baseData : InverterData :=
  { timestamp := 0
    state := none
    vac_l1 := none
    vac_l2 := none
    vac_l3 := none
    iac_l1 := none
    iac_l2 := none
    iac_l3 := none
    freq1 := none
    freq2 := none
    freq3 := none
    pac1 := some 0
    pac2 := none
    pac3 := none
    p_ac := some 0
    temp := none
    e_today := none
    t_today := none
    e_total := none
    co2 := none
    t_total := none
    v_pv1 := none
    v_pv2 := none
    v_pv3 := none
    v_bus := none
    max_power := some 0
    i_pv11 := none
    i_pv12 := none
    i_pv13 := none
    i_pv14 := none
    i_pv21 := none
    i_pv22 := none
    i_pv23 := none
    i_pv24 := none
    i_pv31 := none
    i_pv32 := none
    i_pv33 := none
    i_pv34 := none }

/-- Document carrying the `-` sentinel for `p-ac` and `pac2`. -/
def docDashPac : XmlDoc :=
  fun k => if k = "p-ac" then some "-" else if k = "pac2" then some "-" else none

/-- Document carrying the `-` sentinel for `pac1` only. -/
def docDashPac1 : XmlDoc := fun k => if k = "pac1" then some "-" else none

/-- Document whose `temp` element reads `inf`. -/
def docInfTemp : XmlDoc := fun k => if k = "temp" then some "inf" else none

/-- Result of parsing `docInfTemp`: the stored `temp` value is positive
infinity. -/
def dataInfTemp : InverterData := { baseData with temp := some PyFloat.inf }

/-- Document with fractional numeric literals in the integer-narrowed
fields. -/
def docFracPac : XmlDoc :=
  fun k => if k = "pac1" then some "500.7" else if k = "pac2" then some "-3.9" else none

/-- Result of parsing `docFracPac`. -/
def dataFracPac : InverterData := { baseData with pac1 := some 500, pac2 := some (-3) }

/-- Document whose `pac1` element carries a decimal literal lying strictly
between 2 and 3 but within half an ulp of 3, so that `float` rounds it up to
`3.0` before `int` runs. -/
def docNearThree : XmlDoc :=
  fun k => if k = "pac1" then some "2.9999999999999999" else none

/-- Result of parsing `docNearThree`: the stored `pac1` is 3. -/
def dataNearThree : InverterData := { baseData with pac1 := some 3 }

/-- Model of a JSON scalar value as decoded by `response.json()`. -/
inductive JVal where
  | jnull
  | jbool (b : Bool)
  | jnum (q : ℚ)
  | jstr (s : String)
deriving DecidableEq

/-- A decoded JSON object payload: lookup from key to value.  A key bound to
`none` is missing from the object; `some JVal.jnull` is an explicit JSON
`null`. -/
def P1Obj : Type := String → Option JVal

/-- Embedding of the parse portion of `fetch_p1_data` (collect_p1_data.py,
lines 51-72; the near-duplicate in collect_solar_data.py, lines 129-154, is
identical after its endpoint guard).  The `payload` argument is the outcome
of the HTTP fetch and `response.json()`: `none` models a transport error or
malformed JSON, both caught and turned into `None`.  On success the decoded
object is returned unchanged except for the `timestamp` key, which is set to
the capture time `now` (`data['timestamp'] = datetime.now()`).  No key other
than `timestamp` is inspected or required here. -/
def fetch_p1_data (now : JVal) (payload : Option P1Obj) : Option P1Obj :=
  match payload with
  | none => none
  | some data => some (fun k => if k = "timestamp" then some now else data k)

/-- A row of the `p1_devices` table. -/
structure DevRow where
  id : ℕ
  unique_id : JVal
  meter_model : Option JVal
  smr_version : Option JVal
  wifi_ssid : Option JVal
deriving DecidableEq

/-- The `p1_devices` table: its rows in insertion order and the next
`AUTO_INCREMENT` id. -/
structure DevTable where
  rows : List DevRow
  nextId : ℕ
deriving DecidableEq

/-- MySQL value equality as used by `WHERE unique_id = %s`: structural
equality between non-null scalars; a SQL `NULL` compares equal to nothing,
itself included. -/
def sqlEq (a b : JVal) : Bool :=
  match a, b with
  | .jnull, _ => false
  | _, .jnull => false
  | a, b => decide (a = b)

/-- Embedding of `get_or_create_device` (collect_p1_data.py, lines 75-123;
the near-duplicate `get_or_create_p1_device` in collect_solar_data.py, lines
157-205, is identical).  `data['unique_id']` raises a `KeyError` when the key
is missing, caught by the function's catch-all handler which returns `None`
(the outer `none`).  Otherwise the device is looked up by external id
(`SELECT id FROM p1_devices WHERE unique_id = %s`, first match); if found its
id is returned and the table is unchanged; if not, a new row is inserted with
the supplied attributes and the fresh id is returned. -/
def get_or_create_device (data : P1Obj) (st : DevTable) : Option (ℕ × DevTable) :=
  match data "unique_id" with
  | none => none
  | some uid =>
    match st.rows.find? (fun r => sqlEq r.unique_id uid) with
    | some r => some (r.id, st)
    | none =>
      some (st.nextId,
        { rows := st.rows ++
            [{ id := st.nextId, unique_id := uid, meter_model := data "meter_model",
               smr_version := data "smr_version", wifi_ssid := data "wifi_ssid" }],
          nextId := st.nextId + 1 })

/-- Number of `p1_devices` rows carrying the given external unique id. -/
def countMatching (st : DevTable) (uid : JVal) : ℕ :=
  st.rows.countP (fun r => sqlEq r.unique_id uid)

/-- Payload of a demo meter. -/
def demoMeter : P1Obj := fun k => if k = "unique_id" then some (JVal.jstr "m1") else none

/-- The empty `p1_devices` table. -/
def emptyDevTable : DevTable := { rows := [], nextId := 1 }

/-- The table holding just the demo meter's device row. -/
def demoDevTable : DevTable :=
  { rows := [{ id := 1, unique_id := JVal.jstr "m1", meter_model := none,
               smr_version := none, wifi_ssid := none }],
    nextId := 2 }

/-- A well-formed JSON payload with no keys at all (in particular no
`unique_id`). -/
def noIdPayload : P1Obj := fun _ => none

/-- A row of the `p1_meter_data` table, one field per SQL parameter of the
insert in `store_data` (collect_p1_data.py, lines 139-185; the near-duplicate
`store_p1_data` in collect_solar_data.py, lines 221-267, is identical).
Fields read with `data.get(key)` are `Option JVal` (`none` when the key is
missing, yielding SQL NULL); the eight event counters are read with
`data.get(key, 0)` and therefore always carry a value. -/
structure P1Row where
  device_id : ℕ
  timestamp : JVal
  wifi_strength : Option JVal
  active_tariff : Option JVal
  total_power_import_kwh : Option JVal
  total_power_import_t1_kwh : Option JVal
  total_power_import_t2_kwh : Option JVal
  total_power_export_kwh : Option JVal
  total_power_export_t1_kwh : Option JVal
  total_power_export_t2_kwh : Option JVal
  active_power_w : Option JVal
  active_power_l1_w : Option JVal
  active_power_l2_w : Option JVal
  active_power_l3_w : Option JVal
  active_voltage_l1_v : Option JVal
  active_voltage_l2_v : Option JVal
  active_voltage_l3_v : Option JVal
  active_current_a : Option JVal
  active_current_l1_a : Option JVal
  active_current_l2_a : Option JVal
  active_current_l3_a : Option JVal
  voltage_sag_l1_count : JVal
  voltage_sag_l2_count : JVal
  voltage_sag_l3_count : JVal
  voltage_swell_l1_count : JVal
  voltage_swell_l2_count : JVal
  voltage_swell_l3_count : JVal
  any_power_fail_count : JVal
  long_power_fail_count : JVal
deriving DecidableEq

/-- Embedding of the value-tuple construction of `store_data`
(collect_p1_data.py, lines 126-202) and `store_p1_data`
(collect_solar_data.py, lines 208-284): the row inserted into
`p1_meter_data`.  `data['timestamp']` raises a `KeyError` if the key is
missing (caught by the catch-all handler, which reports failure); every
other field uses `data.get`, with default `0` for the eight event
counters. -/
def store_p1_data (device_id : ℕ) (data : P1Obj) : Option P1Row :=
  match data "timestamp" with
  | none => none
  | some ts =>
    some
      { device_id := device_id
        timestamp := ts
        wifi_strength := data "wifi_strength"
        active_tariff := data "active_tariff"
        total_power_import_kwh := data "total_power_import_kwh"
        total_power_import_t1_kwh := data "total_power_import_t1_kwh"
        total_power_import_t2_kwh := data "total_power_import_t2_kwh"
        total_power_export_kwh := data "total_power_export_kwh"
        total_power_export_t1_kwh := data "total_power_export_t1_kwh"
        total_power_export_t2_kwh := data "total_power_export_t2_kwh"
        active_power_w := data "active_power_w"
        active_power_l1_w := data "active_power_l1_w"
        active_power_l2_w := data "active_power_l2_w"
        active_power_l3_w := data "active_power_l3_w"
        active_voltage_l1_v := data "active_voltage_l1_v"
        active_voltage_l2_v := data "active_voltage_l2_v"
        active_voltage_l3_v := data "active_voltage_l3_v"
        active_current_a := data "active_current_a"
        active_current_l1_a := data "active_current_l1_a"
        active_current_l2_a := data "active_current_l2_a"
        active_current_l3_a := data "active_current_l3_a"
        voltage_sag_l1_count := (data "voltage_sag_l1_count").getD (JVal.jnum 0)
        voltage_sag_l2_count := (data "voltage_sag_l2_count").getD (JVal.jnum 0)
        voltage_sag_l3_count := (data "voltage_sag_l3_count").getD (JVal.jnum 0)
        voltage_swell_l1_count := (data "voltage_swell_l1_count").getD (JVal.jnum 0)
        voltage_swell_l2_count := (data "voltage_swell_l2_count").getD (JVal.jnum 0)
        voltage_swell_l3_count := (data "voltage_swell_l3_count").getD (JVal.jnum 0)
        any_power_fail_count := (data "any_power_fail_count").getD (JVal.jnum 0)
        long_power_fail_count := (data "long_power_fail_count").getD (JVal.jnum 0) }

/-- A meter payload carrying an explicit JSON `null` for one sag counter. -/
def nullSagPayload : P1Obj := fun k =>
  if k = "unique_id" then some (JVal.jstr "m1")
  else if k = "timestamp" then some (JVal.jstr "t0")
  else if k = "voltage_sag_l1_count" then some JVal.jnull
  else none

/-- A meter payload carrying only identity and timestamp: no counter keys. -/
def sagFreePayload : P1Obj := fun k =>
  if k = "unique_id" then some (JVal.jstr "m1")
  else if k = "timestamp" then some (JVal.jstr "t0")
  else none

/-- Stored row for `sagFreePayload`: all eight event counters are zero, all
nullable measurement fields are NULL. -/
def sagFreeRow : P1Row :=
  { device_id := 1
    timestamp := JVal.jstr "t0"
    wifi_strength := none
    active_tariff := none
    total_power_import_kwh := none
    total_power_import_t1_kwh := none
    total_power_import_t2_kwh := none
    total_power_export_kwh := none
    total_power_export_t1_kwh := none
    total_power_export_t2_kwh := none
    active_power_w := none
    active_power_l1_w := none
    active_power_l2_w := none
    active_power_l3_w := none
    active_voltage_l1_v := none
    active_voltage_l2_v := none
    active_voltage_l3_v := none
    active_current_a := none
    active_current_l1_a := none
    active_current_l2_a := none
    active_current_l3_a := none
    voltage_sag_l1_count := JVal.jnum 0
    voltage_sag_l2_count := JVal.jnum 0
    voltage_sag_l3_count := JVal.jnum 0
    voltage_swell_l1_count := JVal.jnum 0
    voltage_swell_l2_count := JVal.jnum 0
    voltage_swell_l3_count := JVal.jnum 0
    any_power_fail_count := JVal.jnum 0
    long_power_fail_count := JVal.jnum 0 }

/-- Outcomes of the external effects performed by one invocation of `main`
(collect_solar_data.py, lines 365-440): the fetched solar payload (after
parsing), the success of the inverter-row insert, whether the meter endpoint
is configured (`config.p1_endpoint` non-empty), the fetched meter payload,
the resolved device id and the success of the meter-row insert.  The
orchestrator's own logic — branching, aggregation, summary building, run
logging and exit code — is the function `mainRun` below. -/
structure Env where
  solarFetch : Option InverterData
  solarStoreOk : Bool
  p1Configured : Bool
  p1Fetch : Option P1Obj
  deviceResolve : Option ℕ
  p1StoreOk : Bool

/-- The observable outcome of one orchestrator invocation: the status and
message of the `collection_logs` row written by `log_collection_result`, and
the process exit code. -/
structure RunOutcome where
  status : String
  message : String
  exitCode : ℕ
deriving DecidableEq

/-- Embedding of the normal path of `main` (collect_solar_data.py, lines
375-433): the solar source is always attempted (fetch then store, each
failure appending its message and marking the source failed); the meter
source is attempted only when configured (fetch, then device resolution,
then store), otherwise `p1_success = True` vacuously; overall success is the
conjunction; the summary joins the per-source messages with `" | "`; on
success the run is logged with status `success` and the process exits 0,
otherwise with status `error` and exit code 1.  The message-rendering
f-strings are abstracted as the `solarMsg`/`p1Msg` parameters. -/
def mainRun (solarMsg : InverterData → String) (p1Msg : P1Obj → String) (env : Env) :
    RunOutcome :=
  let solarStep : Bool × List String :=
    match env.solarFetch with
    | some d =>
      if env.solarStoreOk then (true, [solarMsg d])
      else (false, ["Solar: Failed to store data"])
    | none => (false, ["Solar: Failed to fetch data"])
  let p1Step : Bool × List String :=
    if env.p1Configured then
      match env.p1Fetch with
      | some o =>
        match env.deviceResolve with
        | some _ =>
          if env.p1StoreOk then (true, solarStep.2 ++ [p1Msg o])
          else (false, solarStep.2 ++ ["P1: Failed to store data"])
        | none => (false, solarStep.2 ++ ["P1: Failed to get/create device"])
      | none => (false, solarStep.2 ++ ["P1: Failed to fetch data"])
    else (true, solarStep.2)
  let overall := solarStep.1 && p1Step.1
  let summary :=
    if p1Step.2 = [] then "No data collected" else String.intercalate " | " p1Step.2
  if overall then { status := "success", message := summary, exitCode := 0 }
  else { status := "error", message := summary, exitCode := 1 }

/-- Embedding of `main` including its top-level exception handler
(collect_solar_data.py, lines 435-440): `exc = some e` models an exception
with description `e` escaping the per-source/aggregation steps; it is caught,
logged as an error-status run whose message is `"Unexpected error: "`
followed by the description, and the process exits 1.  Totality in `exc`
models that every invocation — exceptional or not — produces exactly one run
log entry. -/
def solar_main (solarMsg : InverterData → String) (p1Msg : P1Obj → String) (env : Env)
    (exc : Option String) : RunOutcome :=
  match exc with
  | some e => { status := "error", message := "Unexpected error: " ++ e, exitCode := 1 }
  | none => mainRun solarMsg p1Msg env

/-- The solar source succeeded: fetch produced a payload and the store
reported success. -/
def solarOk (env : Env) : Prop :=
  env.solarFetch.isSome = true ∧ env.solarStoreOk = true

/-- The meter source pipeline succeeded: fetch, device resolution and store
all reported success. -/
def p1Ok (env : Env) : Prop :=
  env.p1Fetch.isSome = true ∧ env.deviceResolve.isSome = true ∧ env.p1StoreOk = true

/-- Environment of a run where the inverter pipeline succeeds and the meter
endpoint is not configured. -/
def envAllOk : Env :=
  { solarFetch := some baseData, solarStoreOk := true, p1Configured := false,
    p1Fetch := none, deviceResolve := none, p1StoreOk := true }

/-- C1: `parse_xml_value` (the `coerce_number` of the spec) maps a null input,
a whitespace-only or empty string, and the literal `-` sentinel to absent; a
string that `float` parses successfully is mapped to exactly that parsed
value; and a malformed string is mapped to absent.  The function is total, so
no error is ever raised or propagated. -/
theorem coerce_number_spec :
    parse_xml_value none = none
    ∧ (∀ s : String, pyStrip s = "" → parse_xml_value (some s) = none)
    ∧ (∀ s : String, pyStrip s = "-" → parse_xml_value (some s) = none)
    ∧ (∀ (s : String) (v : PyFloat), pyFloat s = some v → parse_xml_value (some s) = some v)
    ∧ (∀ s : String, pyFloat s = none → parse_xml_value (some s) = none) := by
  have hdash : pyFloatOfChars (String.toList "-") = none := by decide
  have hemp : pyFloatOfChars (String.toList "") = none := by decide
  refine ⟨rfl, ?_, ?_, ?_, ?_⟩
  · intro s h
    simp [parse_xml_value, h]
  · intro s h
    simp [parse_xml_value, h]
  · intro s v h
    have hne : ¬ (pyStrip s = "-" ∨ pyStrip s = "") := by
      rintro (h1 | h1)
      · rw [pyFloat, h1, hdash] at h
        exact Option.noConfusion h
      · rw [pyFloat, h1, hemp] at h
        exact Option.noConfusion h
    simpa [parse_xml_value, hne] using h
  · intro s h
    by_cases hc : pyStrip s = "-" ∨ pyStrip s = ""
    · simp [parse_xml_value, hc]
    · simpa [parse_xml_value, hc] using h

/-- Witness for C1 at concrete inputs: a whitespace-only string, a padded
sentinel, a well-formed numeric literal and a malformed string. -/
theorem coerce_number_spec_witness :
    parse_xml_value (some "  ") = none
    ∧ parse_xml_value (some " - ") = none
    ∧ parse_xml_value (some "3.5") = some (PyFloat.fin (mkRat 7 2))
    ∧ parse_xml_value (some "abc") = none :=
  ⟨coerce_number_spec.2.1 "  " (by decide),
   coerce_number_spec.2.2.1 " - " (by decide),
   coerce_number_spec.2.2.2.1 "3.5" (PyFloat.fin (mkRat 7 2)) (by decide),
   coerce_number_spec.2.2.2.2 "abc" (by decide)⟩

/-- Helper: a successful inverter parse determines every field of the result
from the document. -/
theorem fetch_inverter_data_fields (ts : ℕ) (doc : XmlDoc) (d : InverterData)
    (hd : fetch_inverter_data ts (some doc) = some d) :
    d.timestamp = ts
    ∧ d.state = doc "state"
    ∧ d.vac_l1 = parse_xml_value (doc "Vac_l1")
    ∧ d.vac_l2 = parse_xml_value (doc "Vac_l2")
    ∧ d.vac_l3 = parse_xml_value (doc "Vac_l3")
    ∧ d.iac_l1 = parse_xml_value (doc "Iac_l1")
    ∧ d.iac_l2 = parse_xml_value (doc "Iac_l2")
    ∧ d.iac_l3 = parse_xml_value (doc "Iac_l3")
    ∧ d.freq1 = parse_xml_value (doc "Freq1")
    ∧ d.freq2 = parse_xml_value (doc "Freq2")
    ∧ d.freq3 = parse_xml_value (doc "Freq3")
    ∧ d.pac1 = requiredInt (parse_xml_value (doc "pac1"))
    ∧ some d.pac2 = optionalInt (parse_xml_value (doc "pac2"))
    ∧ some d.pac3 = optionalInt (parse_xml_value (doc "pac3"))
    ∧ d.p_ac = requiredInt (parse_xml_value (doc "p-ac"))
    ∧ d.temp = parse_xml_value (doc "temp")
    ∧ d.e_today = parse_xml_value (doc "e-today")
    ∧ d.t_today = parse_xml_value (doc "t-today")
    ∧ d.e_total = parse_xml_value (doc "e-total")
    ∧ d.co2 = parse_xml_value (doc "CO2")
    ∧ d.t_total = parse_xml_value (doc "t-total")
    ∧ d.v_pv1 = parse_xml_value (doc "v-pv1")
    ∧ d.v_pv2 = parse_xml_value (doc "v-pv2")
    ∧ d.v_pv3 = parse_xml_value (doc "v-pv3")
    ∧ d.v_bus = parse_xml_value (doc "v-bus")
    ∧ d.max_power = requiredInt (parse_xml_value (doc "maxPower"))
    ∧ d.i_pv11 = parse_xml_value (doc "i-pv11")
    ∧ d.i_pv12 = parse_xml_value (doc "i-pv12")
    ∧ d.i_pv13 = parse_xml_value (doc "i-pv13")
    ∧ d.i_pv14 = parse_xml_value (doc "i-pv14")
    ∧ d.i_pv21 = parse_xml_value (doc "i-pv21")
    ∧ d.i_pv22 = parse_xml_value (doc "i-pv22")
    ∧ d.i_pv23 = parse_xml_value (doc "i-pv23")
    ∧ d.i_pv24 = parse_xml_value (doc "i-pv24")
    ∧ d.i_pv31 = parse_xml_value (doc "i-pv31")
    ∧ d.i_pv32 = parse_xml_value (doc "i-pv32")
    ∧ d.i_pv33 = parse_xml_value (doc "i-pv33")
    ∧ d.i_pv34 = parse_xml_value (doc "i-pv34") := by
  unfold fetch_inverter_data at hd
  simp only [Option.bind_eq_some, Option.some.injEq] at hd
  obtain ⟨v1, h1, v2, h2, v3, h3, v4, h4, v5, h5, hrec⟩ := hd
  subst hrec
  exact ⟨rfl, rfl, rfl, rfl, rfl, rfl, rfl, rfl, rfl, rfl, rfl,
    h1.symm, h2.symm, h3.symm, h4.symm,
    rfl, rfl, rfl, rfl, rfl, rfl, rfl, rfl, rfl, rfl,
    h5.symm, rfl, rfl, rfl, rfl, rfl, rfl, rfl, rfl, rfl, rfl, rfl, rfl⟩

/-- Helper: `int(x or 0)` on a present finite float is truncation toward
zero (the falsy case `x == 0.0` also lands on `0 = truncQ 0`). -/
theorem requiredInt_fin (q : ℚ) : requiredInt (some (PyFloat.fin q)) = some (truncQ q) := by
  by_cases h : q = 0
  · subst h
    simp [requiredInt, pyTruthy, pyInt]
    decide
  · simp [requiredInt, pyTruthy, pyInt, h]

/-- Helper: the optional-int narrowing on a present finite float is
truncation toward zero wrapped in `some`. -/
theorem optionalInt_fin (q : ℚ) :
    optionalInt (some (PyFloat.fin q)) = some (some (truncQ q)) := by
  by_cases h : q = 0
  · subst h
    simp [optionalInt, pyTruthy, pyInt]
    decide
  · simp [optionalInt, pyTruthy, pyInt, h]

/-- Helper: on nonnegative rationals, truncation toward zero is the floor. -/
theorem truncQ_nonneg (q : ℚ) (h : 0 ≤ q) : truncQ q = ⌊q⌋ := by
  rw [Rat.floor_def, truncQ]
  exact Int.tdiv_eq_ediv (Rat.num_nonneg.mpr h) (by positivity)

/-- Helper: on negative rationals, truncation toward zero is the ceiling. -/
theorem truncQ_neg (q : ℚ) (h : q < 0) : truncQ q = ⌈q⌉ := by
  have h2 : 0 ≤ -q := by linarith
  have h3 : truncQ (-q) = ⌊-q⌋ := truncQ_nonneg (-q) h2
  have h4 : truncQ (-q) = -truncQ q := by
    rw [truncQ, truncQ, Rat.neg_num, Rat.neg_den, Int.neg_tdiv]
  have h5 : ⌊-q⌋ = -⌈q⌉ := Int.floor_neg
  omega

/-- C3: on any successfully parsed payload whose `p-ac` element carries the
literal sentinel `-`, the combined AC power is narrowed to `0`
(required-with-default), while a `pac2` element carrying the same sentinel
leaves the parsed `pac2` field absent (optional, no default). -/
theorem pac_sentinel_defaults (ts : ℕ) (doc : XmlDoc) (d : InverterData)
    (hd : fetch_inverter_data ts (some doc) = some d) :
    (doc "p-ac" = some "-" → d.p_ac = some 0)
    ∧ (doc "pac2" = some "-" → d.pac2 = none) := by
  obtain ⟨-, -, -, -, -, -, -, -, -, -, -, hpac1, hpac2, hpac3, hpac, -⟩ :=
    fetch_inverter_data_fields ts doc d hd
  constructor
  · intro h
    rw [hpac, h]
    decide
  · intro h
    rw [h] at hpac2
    have hv : optionalInt (parse_xml_value (some "-")) = some none := by decide
    rw [hv] at hpac2
    exact Option.some_injective _ hpac2

/-- Witness for C3: the concrete document with both sentinel fields. -/
theorem pac_sentinel_defaults_witness :
    fetch_inverter_data 0 (some docDashPac) = some baseData
    ∧ baseData.p_ac = some 0
    ∧ baseData.pac2 = none := by
  have hd : fetch_inverter_data 0 (some docDashPac) = some baseData := by decide
  have h := pac_sentinel_defaults 0 docDashPac baseData hd
  exact ⟨hd, h.1 (by decide), h.2 (by decide)⟩

/-- Counterexample to C5: on a payload whose `pac1` element carries the
sentinel `-`, the parsed `pac1` field is the integer `0`, not absent —
`pac1` is narrowed with `int(... or 0)` exactly like `p_ac`, with no
`if ... is not None else None` guard (collect_solar_data.py, line 86). -/
theorem pac1_absent_cex :
    fetch_inverter_data 0 (some docDashPac1) = some baseData
    ∧ baseData.pac1 = some 0
    ∧ baseData.pac1 ≠ none := by decide

/-- C5 (amended): a `pac1` element that is missing or carries the sentinel
yields the default `0` (required-with-default, like `p_ac`); only `pac2` and
`pac3` are optional, staying absent when their element is missing or a
sentinel. -/
theorem pac1_required_default (ts : ℕ) (doc : XmlDoc) (d : InverterData)
    (hd : fetch_inverter_data ts (some doc) = some d) :
    (parse_xml_value (doc "pac1") = none → d.pac1 = some 0)
    ∧ (parse_xml_value (doc "pac2") = none → d.pac2 = none)
    ∧ (parse_xml_value (doc "pac3") = none → d.pac3 = none) := by
  obtain ⟨-, -, -, -, -, -, -, -, -, -, -, hpac1, hpac2, hpac3, -, -⟩ :=
    fetch_inverter_data_fields ts doc d hd
  refine ⟨?_, ?_, ?_⟩
  · intro h
    rw [hpac1, h]
    rfl
  · intro h
    rw [h] at hpac2
    exact Option.some_injective _ hpac2
  · intro h
    rw [h] at hpac3
    exact Option.some_injective _ hpac3

/-- Witness for the amended C5 at the sentinel document. -/
theorem pac1_required_default_witness :
    fetch_inverter_data 0 (some docDashPac1) = some baseData
    ∧ baseData.pac1 = some 0
    ∧ baseData.pac2 = none := by
  have hd : fetch_inverter_data 0 (some docDashPac1) = some baseData := by decide
  have h := pac1_required_default 0 docDashPac1 baseData hd
  exact ⟨hd, h.1 (by decide), h.2.1 (by decide)⟩

/-- Counterexample to C9: a payload whose `temp` element reads `inf` parses
successfully and stores a non-finite number in the `temp` field — Python's
`float("inf")` succeeds, so the "finite number or absent" invariant fails. -/
theorem optional_fields_finite_cex :
    fetch_inverter_data 0 (some docInfTemp) = some dataInfTemp
    ∧ dataInfTemp.temp = some PyFloat.inf
    ∧ PyFloat.isFinite PyFloat.inf = false := by decide

/-- C9 (amended): every optional scalar field of a successfully parsed
inverter reading is exactly the Value-Coercion output of its element text — a
parsed float value or absent, never the raw sentinel string (sentinel text
always coerces to absent) — but the parsed value may be non-finite, since
`float` accepts `inf`/`nan` spellings. -/
theorem optional_fields_coerced (ts : ℕ) (doc : XmlDoc) (d : InverterData)
    (hd : fetch_inverter_data ts (some doc) = some d) :
    d.vac_l1 = parse_xml_value (doc "Vac_l1")
    ∧ d.vac_l2 = parse_xml_value (doc "Vac_l2")
    ∧ d.vac_l3 = parse_xml_value (doc "Vac_l3")
    ∧ d.iac_l1 = parse_xml_value (doc "Iac_l1")
    ∧ d.iac_l2 = parse_xml_value (doc "Iac_l2")
    ∧ d.iac_l3 = parse_xml_value (doc "Iac_l3")
    ∧ d.freq1 = parse_xml_value (doc "Freq1")
    ∧ d.freq2 = parse_xml_value (doc "Freq2")
    ∧ d.freq3 = parse_xml_value (doc "Freq3")
    ∧ d.temp = parse_xml_value (doc "temp")
    ∧ d.e_today = parse_xml_value (doc "e-today")
    ∧ d.t_today = parse_xml_value (doc "t-today")
    ∧ d.e_total = parse_xml_value (doc "e-total")
    ∧ d.co2 = parse_xml_value (doc "CO2")
    ∧ d.t_total = parse_xml_value (doc "t-total")
    ∧ d.v_pv1 = parse_xml_value (doc "v-pv1")
    ∧ d.v_pv2 = parse_xml_value (doc "v-pv2")
    ∧ d.v_pv3 = parse_xml_value (doc "v-pv3")
    ∧ d.v_bus = parse_xml_value (doc "v-bus")
    ∧ d.i_pv11 = parse_xml_value (doc "i-pv11")
    ∧ d.i_pv12 = parse_xml_value (doc "i-pv12")
    ∧ d.i_pv13 = parse_xml_value (doc "i-pv13")
    ∧ d.i_pv14 = parse_xml_value (doc "i-pv14")
    ∧ d.i_pv21 = parse_xml_value (doc "i-pv21")
    ∧ d.i_pv22 = parse_xml_value (doc "i-pv22")
    ∧ d.i_pv23 = parse_xml_value (doc "i-pv23")
    ∧ d.i_pv24 = parse_xml_value (doc "i-pv24")
    ∧ d.i_pv31 = parse_xml_value (doc "i-pv31")
    ∧ d.i_pv32 = parse_xml_value (doc "i-pv32")
    ∧ d.i_pv33 = parse_xml_value (doc "i-pv33")
    ∧ d.i_pv34 = parse_xml_value (doc "i-pv34")
    ∧ (∀ s : String, pyStrip s = "-" ∨ pyStrip s = "" → parse_xml_value (some s) = none) := by
  obtain ⟨-, -, h1, h2, h3, h4, h5, h6, h7, h8, h9, -, -, -, -, h10, h11, h12, h13, h14,
    h15, h16, h17, h18, h19, -, h20, h21, h22, h23, h24, h25, h26, h27, h28, h29, h30, h31⟩ :=
    fetch_inverter_data_fields ts doc d hd
  refine ⟨h1, h2, h3, h4, h5, h6, h7, h8, h9, h10, h11, h12, h13, h14, h15, h16, h17, h18,
    h19, h20, h21, h22, h23, h24, h25, h26, h27, h28, h29, h30, h31, ?_⟩
  intro s h
  rcases h with h | h <;> simp [parse_xml_value, h]

/-- Witness for the amended C9: the `inf` document, plus sentinel coercion at
the literal `-`. -/
theorem optional_fields_coerced_witness :
    fetch_inverter_data 0 (some docInfTemp) = some dataInfTemp
    ∧ dataInfTemp.temp = parse_xml_value (docInfTemp "temp")
    ∧ parse_xml_value (some "-") = none := by
  have hd : fetch_inverter_data 0 (some docInfTemp) = some dataInfTemp := by decide
  have h := optional_fields_coerced 0 docInfTemp dataInfTemp hd
  refine ⟨hd, ?_, ?_⟩
  · exact h.2.2.2.2.2.2.2.2.2.1
  · exact h.2.2.2.2.2.2.2.2.2.2.2.2.2.2.2.2.2.2.2.2.2.2.2.2.2.2.2.2.2.2.2 "-" (Or.inl (by decide))

/-- Counterexample to C10 as stated: `float` first rounds the decimal
literal to the nearest binary64 double, and only then does `int` truncate
toward zero.  The literal `2.9999999999999999` (exact value
`29999999999999999 / 10 ^ 16`, truncation toward zero `2`) lies within half
an ulp of `3.0`, so `float` rounds it up and the program stores `3`, not the
`2` that truncation of the literal's number toward zero would give. -/
theorem decimal_truncation_cex :
    parse_xml_value (some "2.9999999999999999") = some (PyFloat.fin 3)
    ∧ fetch_inverter_data 0 (some docNearThree) = some dataNearThree
    ∧ dataNearThree.pac1 = some 3
    ∧ truncQ (mkRat 29999999999999999 10000000000000000) = 2
    ∧ dataNearThree.pac1
        ≠ some (truncQ (mkRat 29999999999999999 10000000000000000)) := by decide

/-- C10 (amended): whenever an integer-narrowed field (`pac1`, `pac2`,
`pac3`, `p-ac`, `maxPower`) of a successfully parsed payload carries a
well-formed numeric literal parsed to a finite value `q` — the literal's
value rounded by `float` to the nearest binary64 double — the parsed field
is `q` truncated toward zero: the floor for nonnegative and the ceiling for
negative values (so `500.7` gives `500` and `-3.9` gives `-3`).  The `int`
step never rounds to nearest; but the preceding `float` step does, so a
literal within half an ulp of an integer (`2.9999999999999999`) lands on
that integer first. -/
theorem int_fields_truncate (ts : ℕ) (doc : XmlDoc) (d : InverterData)
    (hd : fetch_inverter_data ts (some doc) = some d) :
    (∀ q : ℚ, parse_xml_value (doc "pac1") = some (PyFloat.fin q) → d.pac1 = some (truncQ q))
    ∧ (∀ q : ℚ, parse_xml_value (doc "pac2") = some (PyFloat.fin q) → d.pac2 = some (truncQ q))
    ∧ (∀ q : ℚ, parse_xml_value (doc "pac3") = some (PyFloat.fin q) → d.pac3 = some (truncQ q))
    ∧ (∀ q : ℚ, parse_xml_value (doc "p-ac") = some (PyFloat.fin q) → d.p_ac = some (truncQ q))
    ∧ (∀ q : ℚ,
        parse_xml_value (doc "maxPower") = some (PyFloat.fin q) → d.max_power = some (truncQ q))
    ∧ (∀ q : ℚ, 0 ≤ q → truncQ q = ⌊q⌋)
    ∧ (∀ q : ℚ, q < 0 → truncQ q = ⌈q⌉) := by
  obtain ⟨-, -, -, -, -, -, -, -, -, -, -, hpac1, hpac2, hpac3, hpac, -, -, -, -, -, -, -,
    -, -, -, hmax, -⟩ := fetch_inverter_data_fields ts doc d hd
  refine ⟨?_, ?_, ?_, ?_, ?_, truncQ_nonneg, truncQ_neg⟩
  · intro q h
    rw [hpac1, h, requiredInt_fin]
  · intro q h
    rw [h, optionalInt_fin] at hpac2
    exact Option.some_injective _ hpac2
  · intro q h
    rw [h, optionalInt_fin] at hpac3
    exact Option.some_injective _ hpac3
  · intro q h
    rw [hpac, h, requiredInt_fin]
  · intro q h
    rw [hmax, h, requiredInt_fin]

/-- Witness for the amended C10: `500.7` parses to the double
`8808407552439091 / 2 ^ 44` and narrows to `500`; `-3.9` parses to the
double `-8782019273372467 / 2 ^ 51` and narrows to `-3` (the exact ratios
CPython reports for these literals). -/
theorem int_fields_truncate_witness :
    fetch_inverter_data 0 (some docFracPac) = some dataFracPac
    ∧ parse_xml_value (some "500.7")
        = some (PyFloat.fin (mkRat 8808407552439091 17592186044416))
    ∧ dataFracPac.pac1 = some (truncQ (mkRat 8808407552439091 17592186044416))
    ∧ truncQ (mkRat 8808407552439091 17592186044416) = 500
    ∧ parse_xml_value (some "-3.9")
        = some (PyFloat.fin (mkRat (-8782019273372467) 2251799813685248))
    ∧ dataFracPac.pac2 = some (truncQ (mkRat (-8782019273372467) 2251799813685248))
    ∧ truncQ (mkRat (-8782019273372467) 2251799813685248) = -3 := by
  have hd : fetch_inverter_data 0 (some docFracPac) = some dataFracPac := by decide
  have h := int_fields_truncate 0 docFracPac dataFracPac hd
  exact ⟨hd, by decide, h.1 (mkRat 8808407552439091 17592186044416) (by decide), by decide,
    by decide, h.2.1 (mkRat (-8782019273372467) 2251799813685248) (by decide), by decide⟩

/-- Helper: SQL equality is reflexive on non-null values. -/
theorem sqlEq_self (u : JVal) (h : u ≠ JVal.jnull) : sqlEq u u = true := by
  cases u with
  | jnull => exact absurd rfl h
  | jbool b => simp [sqlEq]
  | jnum q => simp [sqlEq]
  | jstr s => simp [sqlEq]

/-- Helper: behaviour of `get_or_create_device` when the external id is
already registered. -/
theorem get_or_create_device_found (data : P1Obj) (st : DevTable) (u : JVal) (r : DevRow)
    (h : data "unique_id" = some u)
    (hf : st.rows.find? (fun x => sqlEq x.unique_id u) = some r) :
    get_or_create_device data st = some (r.id, st) := by
  simp [get_or_create_device, h, hf]

/-- Helper: behaviour of `get_or_create_device` when the external id is not
yet registered. -/
theorem get_or_create_device_new (data : P1Obj) (st : DevTable) (u : JVal)
    (h : data "unique_id" = some u)
    (hf : st.rows.find? (fun x => sqlEq x.unique_id u) = none) :
    get_or_create_device data st = some (st.nextId,
      { rows := st.rows ++
          [{ id := st.nextId, unique_id := u, meter_model := data "meter_model",
             smr_version := data "smr_version", wifi_ssid := data "wifi_ssid" }],
        nextId := st.nextId + 1 }) := by
  simp [get_or_create_device, h, hf]

/-- C2: calling the device registry twice in sequence with payloads that
carry the same (non-null) external unique id — the model, version and network
attributes of the second payload may differ arbitrarily — returns the same
device id both times, and afterwards exactly one `p1_devices` row carries
that id (given that the table started out satisfying the uniqueness
invariant: at most one matching row). -/
theorem resolve_device_idempotent (data1 data2 : P1Obj) (st0 : DevTable) (u : JVal)
    (h1 : data1 "unique_id" = some u) (h2 : data2 "unique_id" = some u)
    (hnn : u ≠ JVal.jnull) (hcount : countMatching st0 u ≤ 1) :
    ∃ (id : ℕ) (st1 st2 : DevTable),
      get_or_create_device data1 st0 = some (id, st1)
      ∧ get_or_create_device data2 st1 = some (id, st2)
      ∧ countMatching st2 u = 1 := by
  cases hf : st0.rows.find? (fun x => sqlEq x.unique_id u) with
  | some r =>
    refine ⟨r.id, st0, st0, get_or_create_device_found data1 st0 u r h1 hf,
      get_or_create_device_found data2 st0 u r h2 hf, ?_⟩
    have hmem := List.mem_of_find?_eq_some hf
    have hp := List.find?_some hf
    have hpos : 0 < countMatching st0 u := List.countP_pos_iff.mpr ⟨r, hmem, hp⟩
    omega
  | none =>
    have hzero : countMatching st0 u = 0 :=
      List.countP_eq_zero.mpr (List.find?_eq_none.mp hf)
    refine ⟨st0.nextId,
      { rows := st0.rows ++
          [{ id := st0.nextId, unique_id := u, meter_model := data1 "meter_model",
             smr_version := data1 "smr_version", wifi_ssid := data1 "wifi_ssid" }],
        nextId := st0.nextId + 1 },
      { rows := st0.rows ++
          [{ id := st0.nextId, unique_id := u, meter_model := data1 "meter_model",
             smr_version := data1 "smr_version", wifi_ssid := data1 "wifi_ssid" }],
        nextId := st0.nextId + 1 },
      get_or_create_device_new data1 st0 u h1 hf, ?_, ?_⟩
    · refine get_or_create_device_found data2 _ u
        { id := st0.nextId, unique_id := u, meter_model := data1 "meter_model",
          smr_version := data1 "smr_version", wifi_ssid := data1 "wifi_ssid" } h2 ?_
      rw [List.find?_append, hf]
      simp [List.find?, sqlEq_self u hnn]
    · unfold countMatching
      simp only [List.countP_append]
      rw [show st0.rows.countP (fun r => sqlEq r.unique_id u) = 0 from hzero]
      simp [List.countP, List.countP.go, sqlEq_self u hnn]

/-- Witness for C2: registering the demo meter twice from the empty table
creates one row and returns id 1 both times. -/
theorem resolve_device_idempotent_witness :
    get_or_create_device demoMeter emptyDevTable = some (1, demoDevTable)
    ∧ get_or_create_device demoMeter demoDevTable = some (1, demoDevTable)
    ∧ countMatching demoDevTable (JVal.jstr "m1") = 1 := by
  obtain ⟨i, s1, s2, -, -, -⟩ :=
    resolve_device_idempotent demoMeter demoMeter emptyDevTable (JVal.jstr "m1")
      rfl rfl (by decide) (by decide)
  exact ⟨by decide, by decide, by decide⟩

/-- Counterexample to C6: a well-formed meter payload lacking `unique_id`
passes the parse step successfully — `fetch_p1_data` decodes it, stamps the
timestamp and returns it; no `MissingIdentity` failure (or any failure)
happens at parse time. -/
theorem parse_meter_missing_id_cex :
    (fetch_p1_data (JVal.jstr "t0") (some noIdPayload)).isSome = true
    ∧ (fetch_p1_data (JVal.jstr "t0") (some noIdPayload)).map (fun o => o "unique_id")
        = some none := ⟨rfl, rfl⟩

/-- C6 (amended): a well-formed meter payload lacking `unique_id` is parsed
successfully; the missing identity only surfaces one step later, where
`get_or_create_device` hits a `KeyError` on `data['unique_id']` and reports
failure (`None`) for every database state — there is no distinguished
`MissingIdentity` error anywhere in the code. -/
theorem meter_missing_id_fails_at_registry (now : JVal) (data : P1Obj) (st : DevTable)
    (h : data "unique_id" = none) :
    ∃ o : P1Obj, fetch_p1_data now (some data) = some o
      ∧ o "unique_id" = none
      ∧ get_or_create_device o st = none := by
  have hu : (fun k => if k = "timestamp" then some now else data k) "unique_id" = none := by
    simp only []
    rw [if_neg (by decide), h]
  exact ⟨fun k => if k = "timestamp" then some now else data k, rfl, hu,
    by simp [get_or_create_device, h]⟩

/-- Witness for the amended C6 at the empty payload and empty table. -/
theorem meter_missing_id_fails_at_registry_witness :
    noIdPayload "unique_id" = none
    ∧ (fetch_p1_data (JVal.jstr "t0") (some noIdPayload)).isSome = true
    ∧ get_or_create_device
        (fun k => if k = "timestamp" then some (JVal.jstr "t0") else noIdPayload k)
        emptyDevTable = none := by
  obtain ⟨o, ho, -, hreg⟩ :=
    meter_missing_id_fails_at_registry (JVal.jstr "t0") noIdPayload emptyDevTable rfl
  have heq : o = fun k => if k = "timestamp" then some (JVal.jstr "t0") else noIdPayload k :=
    Option.some_injective _ (ho.symm.trans rfl)
  rw [heq] at hreg
  exact ⟨rfl, by rw [ho]; rfl, hreg⟩

/-- Helper: a missing key with default zero stores zero. -/
theorem getD_zero_of_none (v : Option JVal) (h : v = none) :
    v.getD (JVal.jnum 0) = JVal.jnum 0 := by
  rw [h]
  rfl

/-- Helper: the default-zero lookup is null only when the payload carries an
explicit JSON null. -/
theorem getD_zero_ne_null (v : Option JVal) (h : v ≠ some JVal.jnull) :
    v.getD (JVal.jnum 0) ≠ JVal.jnull := by
  cases v with
  | none => decide
  | some x =>
    intro hx
    exact h (by rw [show x = JVal.jnull from hx])

/-- Counterexample to C4: a payload whose `voltage_sag_l1_count` key is
present but bound to JSON `null` stores `null` for that counter —
`data.get(key, 0)` substitutes the default only when the key is absent, so
the stored counter can be null. -/
theorem counters_never_null_cex :
    (store_p1_data 1 nullSagPayload).isSome = true
    ∧ (store_p1_data 1 nullSagPayload).map P1Row.voltage_sag_l1_count
        = some JVal.jnull := by decide

/-- C4 (amended): in every stored meter row, each of the six voltage
sag/swell counters and the two power-failure counters is zero whenever its
key is absent from the source payload, and is null only if the payload binds
the key to an explicit JSON `null` — so counters are never null whenever the
payload does not carry explicit nulls for them. -/
theorem counters_default_zero (device_id : ℕ) (data : P1Obj) (row : P1Row)
    (hr : store_p1_data device_id data = some row) :
    (data "voltage_sag_l1_count" = none → row.voltage_sag_l1_count = JVal.jnum 0)
    ∧ (data "voltage_sag_l2_count" = none → row.voltage_sag_l2_count = JVal.jnum 0)
    ∧ (data "voltage_sag_l3_count" = none → row.voltage_sag_l3_count = JVal.jnum 0)
    ∧ (data "voltage_swell_l1_count" = none → row.voltage_swell_l1_count = JVal.jnum 0)
    ∧ (data "voltage_swell_l2_count" = none → row.voltage_swell_l2_count = JVal.jnum 0)
    ∧ (data "voltage_swell_l3_count" = none → row.voltage_swell_l3_count = JVal.jnum 0)
    ∧ (data "any_power_fail_count" = none → row.any_power_fail_count = JVal.jnum 0)
    ∧ (data "long_power_fail_count" = none → row.long_power_fail_count = JVal.jnum 0)
    ∧ (data "voltage_sag_l1_count" ≠ some JVal.jnull → row.voltage_sag_l1_count ≠ JVal.jnull)
    ∧ (data "voltage_sag_l2_count" ≠ some JVal.jnull → row.voltage_sag_l2_count ≠ JVal.jnull)
    ∧ (data "voltage_sag_l3_count" ≠ some JVal.jnull → row.voltage_sag_l3_count ≠ JVal.jnull)
    ∧ (data "voltage_swell_l1_count" ≠ some JVal.jnull
        → row.voltage_swell_l1_count ≠ JVal.jnull)
    ∧ (data "voltage_swell_l2_count" ≠ some JVal.jnull
        → row.voltage_swell_l2_count ≠ JVal.jnull)
    ∧ (data "voltage_swell_l3_count" ≠ some JVal.jnull
        → row.voltage_swell_l3_count ≠ JVal.jnull)
    ∧ (data "any_power_fail_count" ≠ some JVal.jnull → row.any_power_fail_count ≠ JVal.jnull)
    ∧ (data "long_power_fail_count" ≠ some JVal.jnull
        → row.long_power_fail_count ≠ JVal.jnull) := by
  unfold store_p1_data at hr
  cases hts : data "timestamp" with
  | none =>
    rw [hts] at hr
    exact absurd hr (by simp)
  | some ts =>
    rw [hts] at hr
    have hrec := Option.some_injective _ hr
    subst hrec
    exact ⟨fun h => getD_zero_of_none _ h, fun h => getD_zero_of_none _ h,
      fun h => getD_zero_of_none _ h, fun h => getD_zero_of_none _ h,
      fun h => getD_zero_of_none _ h, fun h => getD_zero_of_none _ h,
      fun h => getD_zero_of_none _ h, fun h => getD_zero_of_none _ h,
      fun h => getD_zero_ne_null _ h, fun h => getD_zero_ne_null _ h,
      fun h => getD_zero_ne_null _ h, fun h => getD_zero_ne_null _ h,
      fun h => getD_zero_ne_null _ h, fun h => getD_zero_ne_null _ h,
      fun h => getD_zero_ne_null _ h, fun h => getD_zero_ne_null _ h⟩

/-- Witness for the amended C4: the counter-free payload stores zeros. -/
theorem counters_default_zero_witness :
    store_p1_data 1 sagFreePayload = some sagFreeRow
    ∧ sagFreeRow.voltage_sag_l1_count = JVal.jnum 0
    ∧ sagFreeRow.any_power_fail_count = JVal.jnum 0
    ∧ sagFreeRow.voltage_sag_l1_count ≠ JVal.jnull := by
  have hd : store_p1_data 1 sagFreePayload = some sagFreeRow := by decide
  have h := counters_default_zero 1 sagFreePayload sagFreeRow hd
  exact ⟨hd, h.1 (by decide), h.2.2.2.2.2.2.1 (by decide),
    h.2.2.2.2.2.2.2.2.1 (by decide)⟩

/-- C7: for an invocation whose per-source steps run to aggregation, the run
status is `success` exactly when every configured source succeeded — the
meter source counts vacuously successful when unconfigured — the exit code is
0 exactly on aggregate success (1 otherwise), and when the meter source is
unconfigured its pipeline outcomes are never consulted (not attempted). -/
theorem aggregate_success_iff (sm : InverterData → String) (pm : P1Obj → String) (env : Env) :
    ((mainRun sm pm env).status = "success"
      ↔ (solarOk env ∧ (env.p1Configured = true → p1Ok env)))
    ∧ ((mainRun sm pm env).exitCode = 0 ↔ (mainRun sm pm env).status = "success")
    ∧ (env.p1Configured = false →
        ∀ (pf : Option P1Obj) (dr : Option ℕ) (ps : Bool),
          mainRun sm pm
            { env with p1Fetch := pf, deviceResolve := dr, p1StoreOk := ps }
            = mainRun sm pm env) := by
  obtain ⟨sf, ss, pc, pf, dr, ps⟩ := env
  cases sf <;> cases ss <;> cases pc <;> cases pf <;> cases dr <;> cases ps <;>
    simp [mainRun, solarOk, p1Ok]

/-- Witness for C7: with the inverter succeeding and the meter unconfigured,
the run status is `success` and the exit code is 0. -/
theorem aggregate_success_iff_witness :
    (mainRun (fun _ => "Solar ok") (fun _ => "P1 ok") envAllOk).status = "success"
    ∧ (mainRun (fun _ => "Solar ok") (fun _ => "P1 ok") envAllOk).exitCode = 0 := by
  have h := aggregate_success_iff (fun _ => "Solar ok") (fun _ => "P1 ok") envAllOk
  have hs : (mainRun (fun _ => "Solar ok") (fun _ => "P1 ok") envAllOk).status = "success" :=
    h.1.mpr ⟨⟨rfl, rfl⟩, fun hc => absurd hc (by decide)⟩
  exact ⟨hs, h.2.1.mpr hs⟩

/-- Counterexample to C8 as literally stated: the message of the exception
run-log entry is not the exception's description itself — the code prefixes
it with `"Unexpected error: "` (collect_solar_data.py, line 437). -/
theorem toplevel_exception_message_cex :
    (solar_main (fun _ => "") (fun _ => "") envAllOk (some "boom")).status = "error"
    ∧ (solar_main (fun _ => "") (fun _ => "") envAllOk (some "boom")).exitCode = 1
    ∧ (solar_main (fun _ => "") (fun _ => "") envAllOk (some "boom")).message
        = "Unexpected error: boom"
    ∧ (solar_main (fun _ => "") (fun _ => "") envAllOk (some "boom")).message ≠ "boom" := by
  refine ⟨rfl, rfl, rfl, ?_⟩
  decide

/-- C8 (amended): every exception escaping the per-source/aggregation steps
is caught at the top level and converted to an error-status run log entry
whose message is `"Unexpected error: "` followed by the exception's
description, with a failed (exit code 1) termination; the entry is recorded
on every such invocation (the handler is total), so the orchestrator never
terminates without an audit entry. -/
theorem toplevel_exception_logged (sm : InverterData → String) (pm : P1Obj → String)
    (env : Env) (e : String) :
    solar_main sm pm env (some e)
      = { status := "error", message := "Unexpected error: " ++ e, exitCode := 1 } := rfl
